import Mathlib

/-!
Verification of the form-automation Coordinator (src/unnamed/part_000, second
snapshot, lines 706-2170).  The JavaScript source is shallowly embedded:

* screen coordinates are rationals (JS numbers idealised as ℚ);
* `Math.round x` is `⌊x + 1/2⌋` (JS rounds half toward +∞);
* Euclidean-distance comparisons `sqrt d2 < c` are embedded as `d2 < c^2`,
  which is equivalent since both sides are nonnegative;
* every `Math.random()` draw pops one rational from an oracle stream in the
  exact source order (draws used only for sleep durations are popped and
  discarded); `getLiveCoords` results, `ghostPath` outputs (the external
  ghost-cursor npm package) and concurrent probe cursor updates are further
  oracle streams; popping an exhausted stream yields a fixed default;
* a rejected `getLiveCoords` promise (timeout) is `none`; the `try`/`catch`
  blocks of the handlers propagate it as a failed attempt.
-/

namespace FormAuto

/-- A screen point (x, y), absolute coordinates. -/
abbrev Pt := ℚ × ℚ

/-- Viewport bounds rectangle, as stored in `this.viewportBounds`. -/
structure Bounds where
  left : ℚ
  top : ℚ
  right : ℚ
  bottom : ℚ
deriving DecidableEq, Repr

/-- `Math.round`: JS rounds half toward +∞, i.e. `⌊x + 1/2⌋`. -/
def jsRound (q : ℚ) : ℤ := ⌊q + 1/2⌋

/-- `Math.max(lo, Math.min(hi, x))` — the clamping idiom used throughout. -/
def clampQ (lo hi x : ℚ) : ℚ := max lo (min hi x)

/-- The safety margin `M = 20` of `moveToAbs`. -/
def margin : ℚ := 20

/-- Clamp a point to the viewport minus the 20 px margin
(`moveToAbs`, lines 1199-1201). -/
def clampPt (b : Bounds) (p : Pt) : Pt :=
  (clampQ (b.left + margin) (b.right - margin) p.1,
   clampQ (b.top + margin) (b.bottom - margin) p.2)

/-- Squared Euclidean distance (the source compares `Math.sqrt` of this
against constants; we compare against the squared constants). -/
def distSq (p q : Pt) : ℚ := (p.1 - q.1)^2 + (p.2 - q.2)^2

/-- One line written to the Injector (Pico) serial device. -/
inductive Cmd where
  | move (dx dy : ℤ)
  | click
  | scroll (n : ℤ)
  | type (c : Char)
  | key (k : String)
  | combo (s : String)
  | raw (s : String)
deriving DecidableEq, Repr

/-- The element currently hovered, `this.currentHovered`. -/
structure Hov where
  id : String
  name : String
deriving DecidableEq, Repr

/-- A DOM snapshot delivered through `/coord-response` (the resolution value
of `getLiveCoords`).  `cursorX = none` models `typeof cursorX !== 'number'`;
`checked = none` models `null`; `vp = none` models `vpLeft === undefined`. -/
structure Coords where
  found : Bool := false
  x : ℚ := 0
  y : ℚ := 0
  cursorX : Option ℚ := none
  cursorY : ℚ := 0
  value : String := ""
  checked : Option Bool := none
  focused : Bool := false
  inViewport : Bool := false
  scrollDeltaNeeded : ℚ := 0
  hoveredLabelText : String := ""
  vp : Option Bounds := none
deriving DecidableEq, Repr

/-- The automation payload parked by `POST /automation`
(`this.pendingAutomationData`); the several accepted JSON spellings
(`picoCommands`, `automationData.commands`, bare array) all reduce to a
command list plus the optional cursor hint. -/
structure AutoData where
  commands : List String := []
  cursorX : Option ℚ := none
  cursorY : Option ℚ := none
deriving DecidableEq, Repr

/-- The mutable fields of the simulator object that the embedded code reads
or writes (diagnostic-only fields such as `detectedFields` are not
modelled).  `emergencyStop` is set only by the SIGINT handler, hence
constant during a run. -/
structure St where
  currentPosition : Pt := (400, 300)
  currentHovered : Hov := ⟨"", ""⟩
  viewportBounds : Option Bounds := none
  isAutomating : Bool := false
  isReading : Bool := false
  pendingAutomationData : Option AutoData := none
  emergencyStop : Bool := false
deriving DecidableEq, Repr

/-- Oracle streams: `queries` are the successive `getLiveCoords` outcomes
(`none` = the 5 s timeout rejected the promise); `rands` are the successive
`Math.random()` draws; `paths` are the successive `ghostPath` outputs;
`lives` are the values of `this.currentPosition` observed at the correction
read of `moveToAbs` (`none` = no concurrent probe update). -/
structure Env where
  queries : List (Option Coords) := []
  rands : List ℚ := []
  paths : List (List Pt) := []
  lives : List (Option Pt) := []
deriving DecidableEq, Repr

/-- Pop one `Math.random()` draw (default 0 on an exhausted stream). -/
def popRand (e : Env) : ℚ × Env :=
  match e.rands with
  | [] => (0, e)
  | r :: rs => (r, { e with rands := rs })

/-- Pop one `getLiveCoords` outcome (default `none`, i.e. timeout). -/
def popQuery (e : Env) : Option Coords × Env :=
  match e.queries with
  | [] => (none, e)
  | q :: qs => (q, { e with queries := qs })

/-- Pop one `ghostPath` output. -/
def popPath (e : Env) : List Pt × Env :=
  match e.paths with
  | [] => ([], e)
  | p :: ps => (p, { e with paths := ps })

/-- Pop one concurrent-cursor observation. -/
def popLive (e : Env) : Option Pt × Env :=
  match e.lives with
  | [] => (none, e)
  | l :: ls => (l, { e with lives := ls })

/-- `Math.floor(r * n)` for a scaled uniform draw. -/
def jsFloorMul (r : ℚ) (n : ℕ) : ℤ := ⌊r * n⌋

/-- `sendCommand` (line 766): under emergency stop it returns without
queueing anything, otherwise the command is written to the serial port. -/
def send (st : St) (c : Cmd) : List Cmd :=
  if st.emergencyStop then [] else [c]

/-- The viewport-bounds refresh the `/coord-response` handler performs
(lines 1560-1566) before resolving a waiter. -/
def vpUpd (st : St) (c : Coords) : St :=
  { st with viewportBounds := match c.vp with
                              | some b => some b
                              | none => st.viewportBounds }

/-- `getLiveCoords` (line 1395): the response handler for `/coord-response`
(line 1550) refreshes the viewport bounds whenever the snapshot carries
them, then resolves the waiter.  `none` is the rejected (timed-out)
promise. -/
def getLiveCoords (st : St) (e : Env) : Option Coords × St × Env :=
  match popQuery e with
  | (none, e) => (none, st, e)
  | (some c, e) => (some c, vpUpd st c, e)

/-- The elements at indices `n, 2n, 3n, …` of a list — the indices visited
by `for (let i = skip; i < points.length; i += skip)` (line 1233).  `fuel`
bounds the recursion; callers pass the list length.  (`n ≥ 1` always: the
source's `skip` is 1, 2 or 3.) -/
def everyNthGo (n : ℕ) : ℕ → List α → List α
  | 0, _ => []
  | fuel + 1, l =>
      match l.drop n with
      | [] => []
      | x :: xs => x :: everyNthGo n fuel (x :: xs)

/-- See `everyNthGo`. -/
def everyNth (n : ℕ) (l : List α) : List α := everyNthGo n l.length l

/-- The relative-move emission loop (lines 1233-1245): walk the selected
points, emit the integer delta to each, skipping zero deltas; each emitted
move is annotated with its landing point (the `lastX, lastY` bookkeeping). -/
def moveSteps (last : ℤ × ℤ) : List (ℤ × ℤ) → List ((ℤ × ℤ) × (ℤ × ℤ))
  | [] => []
  | p :: ps =>
      if p = last then moveSteps last ps
      else ((p.1 - last.1, p.2 - last.2), p) :: moveSteps p ps

/-- The landing point after a list of annotated moves (`lastX, lastY` after
the loop). -/
def landingAfter (start : ℤ × ℤ) (ms : List ((ℤ × ℤ) × (ℤ × ℤ))) : ℤ × ℤ :=
  match ms.getLast? with
  | none => start
  | some m => m.2

/-- Result of `moveToAbs`: the emitted `MOVE` commands annotated with the
absolute point each one lands on (tracked cursor + delta), the new state,
the consumed oracle, and whether the move was carried out (`ok = false` is
the `no viewport bounds` refusal, line 1196). -/
structure MoveOut where
  moves : List (Cmd × Pt)
  st : St
  env : Env
  ok : Bool
deriving DecidableEq, Repr

/-- The commands emitted by a `moveToAbs` call. -/
def MoveOut.cmds (m : MoveOut) : List Cmd := m.moves.map Prod.fst

/-- `moveToAbs(targetX, targetY, startPos)` (lines 1191-1266).

* waiting up to 2 s for bounds is modelled by `st.viewportBounds` holding
  whatever arrived by then; `none` is the refusal;
* target and start are clamped to the viewport minus the 20 px margin;
* `dist < 3` (line 1216) is embedded as `distSq < 9`;
* `ghostPath` (external ghost-cursor package) is an oracle pop; every path
  point is clamped (lines 1223-1226);
* `skip` thresholds `dist > 300` / `dist > 150` become squared ones;
* the per-iteration `emergencyStop` break stops the path loop but the
  final-point write (line 1251) and the correction (lines 1256-1263) still
  run, exactly as in the source;
* the correction reads `this.currentPosition`, which the probe may have
  updated concurrently during the 60 ms settle: an oracle pop, defaulting
  to the value tracked at entry;
* `errDist > 10` (line 1259) is embedded as `errSq > 100`.

The path-walking, final-point and correction emissions (lines 1218-1263)
are factored into `moveEmission`, a pure function of the clamped start and
target, the `ghostPath` output, the emergency flag and the correction-time
cursor reading. -/
def moveEmission (b : Bounds) (esFlag : Bool) (pts0 : List Pt)
    (fx fy tx ty d2 : ℚ) (live : Pt) : List (Cmd × Pt) :=
  let lo₁ := b.left + margin
  let hi₁ := b.right - margin
  let lo₂ := b.top + margin
  let hi₂ := b.bottom - margin
  let pts := pts0.map (fun p => (clampQ lo₁ hi₁ p.1, clampQ lo₂ hi₂ p.2))
  let skip : ℕ := if d2 > 90000 then 3 else if d2 > 22500 then 2 else 1
  let rounded := pts.map (fun p => (jsRound p.1, jsRound p.2))
  let start : ℤ × ℤ := (jsRound fx, jsRound fy)
  let annPath := if esFlag then [] else moveSteps start (everyNth skip rounded)
  let lastP := landingAfter start annPath
  let annFinal : List ((ℤ × ℤ) × (ℤ × ℤ)) :=
    match rounded.getLast? with
    | none => []
    | some fp =>
        if fp = lastP then []
        else [((fp.1 - lastP.1, fp.2 - lastP.2), fp)]
  let errX := tx - live.1
  let errY := ty - live.2
  let annCorr : List (Cmd × Pt) :=
    if errX^2 + errY^2 > 100 then
      [(Cmd.move (jsRound errX) (jsRound errY),
        (live.1 + jsRound errX, live.2 + jsRound errY))]
    else []
  (annPath ++ annFinal).map
      (fun a => (Cmd.move a.1.1 a.1.2, ((a.2.1 : ℚ), (a.2.2 : ℚ))))
    ++ annCorr

/-- See the comment above `moveEmission`. -/
def moveToAbs (st : St) (e : Env) (tx0 ty0 : ℚ) (startPos : Option Pt) :
    MoveOut :=
  match st.viewportBounds with
  | none => ⟨[], st, e, false⟩
  | some b =>
      let lo₁ := b.left + margin
      let hi₁ := b.right - margin
      let lo₂ := b.top + margin
      let hi₂ := b.bottom - margin
      let tx := clampQ lo₁ hi₁ tx0
      let ty := clampQ lo₂ hi₂ ty0
      let from0 := startPos.getD st.currentPosition
      let fx := clampQ lo₁ hi₁ from0.1
      let fy := clampQ lo₂ hi₂ from0.2
      let d2 := distSq (fx, fy) (tx, ty)
      if d2 < 9 then ⟨[], { st with currentPosition := (tx, ty) }, e, true⟩
      else
        let pts0 := (popPath e).1
        let e₁ := (popPath e).2
        let live := ((popLive e₁).1).getD st.currentPosition
        let e₂ := (popLive e₁).2
        ⟨moveEmission b st.emergencyStop pts0 fx fy tx ty d2 live,
         { st with currentPosition := (tx, ty) }, e₂, true⟩

/-- Result of the scroll helper: `res = none` means a `getLiveCoords`
rejection escaped (there is no `try` in `scrollToElement`, so the caller's
`catch` receives it); otherwise the latest snapshot. -/
structure ScrollOut where
  res : Option Coords
  cmds : List Cmd
  st : St
  env : Env
deriving DecidableEq, Repr

/-- The `while (!coords.inViewport && attempts < 12)` loop of
`scrollToElement` (lines 1325-1343); `fuel` counts the remaining
iterations (12 at entry). -/
def scrollLoop (st : St) (e : Env) (c : Coords) : ℕ → ScrollOut
  | 0 => ⟨some c, [], st, e⟩
  | fuel + 1 =>
      if c.inViewport then ⟨some c, [], st, e⟩
      else if st.emergencyStop then ⟨some c, [], st, e⟩
      else
        let delta := c.scrollDeltaNeeded
        if |delta| < 50 then ⟨some { c with inViewport := true }, [], st, e⟩
        else
          let r := (popRand e).1
          let e := (popRand e).2
          let units : ℤ := (if delta > 0 then 1 else -1) * (4 + jsFloorMul r 5)
          let cmds := send st (Cmd.scroll units)
          match getLiveCoords st e with
          | (none, st, e) => ⟨none, cmds, st, e⟩
          | (some c₂, st, e) =>
              if !c₂.found then ⟨some c₂, cmds, st, e⟩
              else
                let out := scrollLoop st e c₂ fuel
                ⟨out.res, cmds ++ out.cmds, out.st, out.env⟩

/-- `scrollToElement` (lines 1320-1354): initial query, the bounded scroll
loop, and a final re-query when the element ended up in view. -/
def scrollToElement (st : St) (e : Env) : ScrollOut :=
  match getLiveCoords st e with
  | (none, st, e) => ⟨none, [], st, e⟩
  | (some c, st, e) =>
      if !c.found || c.inViewport then ⟨some c, [], st, e⟩
      else
        let out := scrollLoop st e c 12
        match out.res with
        | none => out
        | some c' =>
            if c'.inViewport then
              match getLiveCoords out.st out.env with
              | (none, st, e) => ⟨none, out.cmds, st, e⟩
              | (some c₂, st, e) => ⟨some c₂, out.cmds, st, e⟩
            else ⟨some c', out.cmds, st, e⟩

/-- One entry of the typing program produced by `generateTypingCommands`
(`{type:'char'}`, `{type:'key'}`, `{type:'pause'}`). -/
inductive TCmd where
  | tchar (c : Char)
  | tkey (k : String)
  | tpause (ms : ℚ)
deriving DecidableEq, Repr

/-- The characters JS `\s` strips here and the generator refuses to mangle
(`text[i] !== ' ' && text[i] !== '\n'` uses only these two literally). -/
def isSpaceOrNl (c : Char) : Bool := c = ' ' || c = '\n'

/-- The "single wrong char" branch (lines 1293-1310): pick a different
letter from the surrounding word window, emit it, pause, backspace, pause,
retype.  `Math.floor(Math.random()*len)` lands in `[0, len)`, so `List.getD`
with the (unreachable) default `c` is faithful. -/
def wrongCharCmds (t : List Char) (i : ℕ) (c : Char) (e : Env) :
    List TCmd × Env :=
  let word := ((t.drop (i - 3)).take (min t.length (i + 4) - (i - 3))).filter
      (fun ch => !ch.isWhitespace)
  let wc : Char × Env :=
    if word.length > 1 then
      let candidates := word.filter (fun ch => ch ≠ c ∧ ch ≠ ' ')
      if candidates.length > 0 then
        let r := (popRand e).1
        ((candidates.getD (jsFloorMul r candidates.length).toNat c),
         (popRand e).2)
      else (c, e)
    else (c, e)
  let wrongChar := wc.1
  let e := wc.2
  let r₁ := (popRand e).1
  let e := (popRand e).2
  let r₂ := (popRand e).1
  let e := (popRand e).2
  ([TCmd.tchar wrongChar, TCmd.tpause (150 + r₁ * 350),
    TCmd.tkey "Backspace", TCmd.tpause (80 + r₂ * 80), TCmd.tchar c], e)

/-- The "swapped pair" branch (lines 1281-1291). -/
def swapCmds (c₁ c₂ : Char) (e : Env) : List TCmd × Env :=
  let r₁ := (popRand e).1
  let e := (popRand e).2
  let r₂ := (popRand e).1
  let e := (popRand e).2
  let r₃ := (popRand e).1
  let e := (popRand e).2
  ([TCmd.tchar c₂, TCmd.tchar c₁, TCmd.tpause (200 + r₁ * 300),
    TCmd.tkey "Backspace", TCmd.tpause (80 + r₂ * 60),
    TCmd.tkey "Backspace", TCmd.tpause (100 + r₃ * 100),
    TCmd.tchar c₁, TCmd.tchar c₂], e)

/-- The `while (i < text.length)` loop of `generateTypingCommands`
(lines 1276-1316).  `Math.random() < ERROR_RATE` pops a draw at every
position; the `canSwap && Math.random() < 0.4` draw is popped only when
`canSwap` holds (JS `&&` short-circuits). -/
def genTypingAux (t : List Char) (e : Env) (i : ℕ) : List TCmd × Env :=
  if h : i < t.length then
    let c := t.get ⟨i, h⟩
    let r₁ := (popRand e).1
    let e₁ := (popRand e).2
    if r₁ < 8/100 ∧ ¬isSpaceOrNl c then
      if hs : i + 1 < t.length then
        let c' := t.get ⟨i + 1, hs⟩
        if ¬isSpaceOrNl c' then
          let r₂ := (popRand e₁).1
          let e₂ := (popRand e₁).2
          if r₂ < 4/10 then
            let sw := swapCmds c c' e₂
            let rest := genTypingAux t sw.2 (i + 2)
            (sw.1 ++ rest.1, rest.2)
          else
            let wr := wrongCharCmds t i c e₂
            let rest := genTypingAux t wr.2 (i + 1)
            (wr.1 ++ rest.1, rest.2)
        else
          let wr := wrongCharCmds t i c e₁
          let rest := genTypingAux t wr.2 (i + 1)
          (wr.1 ++ rest.1, rest.2)
      else
        let wr := wrongCharCmds t i c e₁
        let rest := genTypingAux t wr.2 (i + 1)
        (wr.1 ++ rest.1, rest.2)
    else
      let rest := genTypingAux t e₁ (i + 1)
      (TCmd.tchar c :: rest.1, rest.2)
  else ([], e)
termination_by t.length - i

/-- `generateTypingCommands(text)` (lines 1272-1318). -/
def generateTypingCommands (t : List Char) (e : Env) : List TCmd × Env :=
  genTypingAux t e 0

/-- Replaying one typing command against the field buffer: a character is
appended, a Backspace key deletes the last appended character, a pause does
nothing. -/
def replayStep (buf : List Char) : TCmd → List Char
  | TCmd.tchar c => buf ++ [c]
  | TCmd.tkey k => if k = "Backspace" then buf.dropLast else buf
  | TCmd.tpause _ => buf

/-- Replaying a whole typing program from an empty field. -/
def replay (cmds : List TCmd) : List Char := cmds.foldl replayStep []

/-- Emit the typing program through `sendCommand` (lines 1837-1847): each
char and key pops the jittered inter-key sleep draw; pauses sleep the
pre-computed duration without drawing. -/
def emitTyping (st : St) (e : Env) : List TCmd → List Cmd × Env
  | [] => ([], e)
  | TCmd.tchar c :: rest =>
      let out := emitTyping st (popRand e).2 rest
      (send st (Cmd.type c) ++ out.1, out.2)
  | TCmd.tkey k :: rest =>
      let out := emitTyping st (popRand e).2 rest
      (send st (Cmd.key k) ++ out.1, out.2)
  | TCmd.tpause _ :: rest => emitTyping st e rest

/-- Strip leading and trailing whitespace (JS `String.prototype.trim`). -/
def trimChars (l : List Char) : List Char :=
  ((l.dropWhile Char.isWhitespace).reverse.dropWhile Char.isWhitespace).reverse

/-- JS `trim` on strings (structural, so the kernel can evaluate it). -/
def jsTrim (s : String) : String := ⟨trimChars s.data⟩

/-- JS `toLowerCase` (structural). -/
def jsToLower (s : String) : String := ⟨s.data.map Char.toLower⟩

/-- JS `substring(0, n)` (structural). -/
def jsTake (s : String) (n : ℕ) : String := ⟨s.data.take n⟩

/-- JS `String.prototype.startsWith` (structural). -/
def jsStartsWith (s p : String) : Bool := p.data.isPrefixOf s.data

/-- JS `String.prototype.split(',')`: every comma separates; no merging of
adjacent separators; the empty string yields `[""]`. -/
def splitCommaChars : List Char → List (List Char)
  | [] => [[]]
  | c :: rest =>
      if c = ',' then [] :: splitCommaChars rest
      else
        match splitCommaChars rest with
        | [] => [[c]]
        | g :: gs => (c :: g) :: gs

/-- See `splitCommaChars`. -/
def jsSplitComma (s : String) : List String :=
  (splitCommaChars s.data).map String.mk

/-- JS `Array.prototype.join(',')` on strings. -/
def jsJoinComma (parts : List String) : String :=
  ⟨List.intercalate [','] (parts.map String.data)⟩

/-- JS `String.prototype.includes`: `sub` occurs contiguously in `s`. -/
def jsIncludes (s sub : String) : Bool :=
  s.data.tails.any (fun t => sub.data.isPrefixOf t)

/-- The FILL_FIELD value verification (lines 1852-1861): the snapshot must
be `found` with a truthy (non-empty) `value`, and after trimming and
case-folding either side must begin with the first 20 characters of the
other. -/
def fillVerify (c : Coords) (text : String) : Bool :=
  c.found && c.value ≠ "" &&
    (let got := jsToLower (jsTrim c.value)
     let want := jsToLower (jsTrim text)
     jsStartsWith got (jsTake want 20) || jsStartsWith want (jsTake got 20))

/-- Modelled from the spec's words, for comparison with `fillVerify`:
"compare `value` (case-folded, trimmed) against the target: success if
either side begins with the first 20 characters of the other". -/
def specFillCriterion (value text : String) : Bool :=
  let got := jsToLower (jsTrim value)
  let want := jsToLower (jsTrim text)
  jsStartsWith got (jsTake want 20) || jsStartsWith want (jsTake got 20)

/-- Result of one action handler: whether it verified, the Injector
commands it emitted, and the threaded state and oracle. -/
structure ActOut where
  okv : Bool
  cmds : List Cmd
  st : St
  env : Env
deriving DecidableEq, Repr

/-- FILL_FIELD attempt, steps 5-6 (lines 1834-1865): clear with
`COMBO,ctrl+a`, emit the typing program, re-query and verify the value.
`acc` carries the commands already emitted by the earlier steps. -/
def fillType (text : String) (acc : List Cmd) (st : St) (e : Env) : ActOut :=
  let cs := acc ++ send st (Cmd.combo "ctrl+a")
  let gen := generateTypingCommands text.toList e
  let ty := emitTyping st gen.2 gen.1
  let e := ty.2
  let cs := cs ++ ty.1
  match getLiveCoords st e with
  | (none, st, e) => ⟨false, cs, st, e⟩
  | (some a, st, e) => ⟨fillVerify a text, cs, st, e⟩

/-- FILL_FIELD attempt, steps 3-6 (lines 1811-1865): move, click, focus
verification with one re-move + re-click, then typing. -/
def fillMoveClick (text : String) (acc : List Cmd) (c₂ : Coords) (st : St)
    (e : Env) : ActOut :=
  let cursorStart := c₂.cursorX.map (fun cx => (cx, c₂.cursorY))
  let mo := moveToAbs st e c₂.x c₂.y cursorStart
  let cs := acc ++ mo.cmds ++ send mo.st Cmd.click
  match getLiveCoords mo.st mo.env with
  | (none, st, e) => ⟨false, cs, st, e⟩
  | (some f₁, st, e) =>
      if f₁.found && !f₁.focused then
        let cst := f₁.cursorX.map (fun cx => (cx, f₁.cursorY))
        let mo₂ := moveToAbs st e f₁.x f₁.y cst
        let cs := cs ++ mo₂.cmds ++ send mo₂.st Cmd.click
        match getLiveCoords mo₂.st mo₂.env with
        | (none, st, e) => ⟨false, cs, st, e⟩
        | (some f₂, st, e) =>
            if f₂.found && !f₂.focused then ⟨false, cs, st, e⟩
            else fillType text cs st e
      else fillType text cs st e

/-- One FILL_FIELD attempt (lines 1791-1869).  Failure paths — a rejected
query (`catch`), an explicit `throw`, or a failed check (`continue`) — all
end the attempt with `okv = false`. -/
def fillAttempt (text : String) (st : St) (e : Env) : ActOut :=
  match getLiveCoords st e with
  | (none, st, e) => ⟨false, [], st, e⟩
  | (some c₀, st, e) =>
  if !c₀.found then ⟨false, [], st, e⟩
  else
    -- step 2: scroll into view if needed, then double-check
    let afterScroll : List Cmd → St → Env → ActOut := fun cs₁ st e =>
      match getLiveCoords st e with
      | (none, st, e) => ⟨false, cs₁, st, e⟩
      | (some c₂, st, e) =>
          if !c₂.found then ⟨false, cs₁, st, e⟩
          else if !c₂.inViewport then ⟨false, cs₁, st, e⟩
          else fillMoveClick text cs₁ c₂ st e
    if !c₀.inViewport then
      let so := scrollToElement st e
      match so.res with
      | none => ⟨false, so.cmds, so.st, so.env⟩
      | some c' =>
          if !c'.found then ⟨false, so.cmds, so.st, so.env⟩
          else afterScroll so.cmds so.st so.env
    else afterScroll [] st e

/-- The FILL_FIELD retry loop, `MAX_RETRIES = 4` (lines 1789-1870). -/
def fillLoop (text : String) (st : St) (e : Env) : ℕ → ActOut
  | 0 => ⟨false, [], st, e⟩
  | fuel + 1 =>
      if st.emergencyStop then ⟨false, [], st, e⟩
      else
        let a := fillAttempt text st e
        if a.okv then a
        else
          let rest := fillLoop text a.st a.env fuel
          ⟨rest.okv, a.cmds ++ rest.cmds, rest.st, rest.env⟩

/-- One CLICK_SELECTOR attempt (lines 1887-1925): query, remember the prior
`checked`, ensure in view, move + click, and for checkable elements verify
the `checked` state flipped. -/
def clickSelAttempt (st : St) (e : Env) : ActOut :=
  match getLiveCoords st e with
  | (none, st, e) => ⟨false, [], st, e⟩
  | (some c₀, st, e) =>
  if !c₀.found then ⟨false, [], st, e⟩
  else
    let prev := c₀.checked
    let afterScroll : List Cmd → St → Env → ActOut := fun cs₁ st e =>
      match getLiveCoords st e with
      | (none, st, e) => ⟨false, cs₁, st, e⟩
      | (some c₂, st, e) =>
      if !c₂.found then ⟨false, cs₁, st, e⟩
      else if !c₂.inViewport then ⟨false, cs₁, st, e⟩
      else
        let cursorStart := c₂.cursorX.map (fun cx => (cx, c₂.cursorY))
        let mo := moveToAbs st e c₂.x c₂.y cursorStart
        let cs₂ := cs₁ ++ mo.cmds ++ send mo.st Cmd.click
        if prev ≠ none then
          match getLiveCoords mo.st mo.env with
          | (none, st, e) => ⟨false, cs₂, st, e⟩
          | (some k, st, e) =>
              if k.found && k.checked ≠ prev then ⟨true, cs₂, st, e⟩
              else ⟨false, cs₂, st, e⟩
        else ⟨true, cs₂, mo.st, mo.env⟩
    if !c₀.inViewport then
      let so := scrollToElement st e
      match so.res with
      | none => ⟨false, so.cmds, so.st, so.env⟩
      | some c' =>
          if !c'.found then ⟨false, so.cmds, so.st, so.env⟩
          else afterScroll so.cmds so.st so.env
    else afterScroll [] st e

/-- The CLICK_SELECTOR retry loop, `MAX_RETRIES = 4` (lines 1883-1926). -/
def clickSelLoop (st : St) (e : Env) : ℕ → ActOut
  | 0 => ⟨false, [], st, e⟩
  | fuel + 1 =>
      if st.emergencyStop then ⟨false, [], st, e⟩
      else
        let a := clickSelAttempt st e
        if a.okv then a
        else
          let rest := clickSelLoop a.st a.env fuel
          ⟨rest.okv, a.cmds ++ rest.cmds, rest.st, rest.env⟩

/-- The CLICK_OPTION post-click verification loop (lines 2040-2046): up to
4 queries tolerating transient `found = false`;  the result is the last
snapshot read (`none` = a query rejected, caught by the attempt's catch). -/
def clickVerify (st : St) (e : Env) : ℕ → Option Coords × St × Env
  | 0 => (none, st, e)
  | fuel + 1 =>
      match getLiveCoords st e with
      | (none, st, e) => (none, st, e)
      | (some c, st, e) =>
          if c.found then (some c, st, e)
          else
            match fuel with
            | 0 => (some c, st, e)
            | _ + 1 => clickVerify st e fuel

/-- CLICK_OPTION attempt, steps 4-7 (lines 2003-2058): sync the tracked
cursor from the Probe's reading (when numeric and positive), add the retry
jitter, move with `moveToAbs`, hover-verify the label text, click, and
verify `checked == true`. -/
def clickOptCore (lab : String) (notFirst : Bool) (coords : Coords)
    (acc : List Cmd) (st : St) (e : Env) : ActOut :=
  let st := match coords.cursorX with
            | some cx =>
                if cx > 0 then { st with currentPosition := (cx, coords.cursorY) }
                else st
            | none => st
  let txy : ℚ × ℚ × Env :=
    if notFirst then
      let r₁ := (popRand e).1
      let e := (popRand e).2
      let r₂ := (popRand e).1
      let e := (popRand e).2
      (coords.x + (jsRound ((r₁ - 1/2) * 10) : ℤ),
       coords.y + (jsRound ((r₂ - 1/2) * 10) : ℤ), e)
    else (coords.x, coords.y, e)
  let mo := moveToAbs st txy.2.2 txy.1 txy.2.1 none
  let acc := acc ++ mo.cmds
  match getLiveCoords mo.st mo.env with
  | (none, st, e) => ⟨false, acc, st, e⟩
  | (some hc, st, e) =>
      let hovering := jsToLower hc.hoveredLabelText
      let want := jsToLower (jsTrim lab)
      if !jsIncludes hovering want then ⟨false, acc, st, e⟩
      else
        let acc := acc ++ send st Cmd.click
        match clickVerify st e 4 with
        | (none, st, e) => ⟨false, acc, st, e⟩
        | (some k, st, e) =>
            if !k.found then ⟨false, acc, st, e⟩
            else if k.checked = some true then ⟨true, acc, st, e⟩
            else ⟨false, acc, st, e⟩

/-- One CLICK_OPTION attempt (lines 1956-2062).  On retries
(`attempt > 0`, i.e. `notFirst`) a small `MOVE,nudge,nudge` jiggle is sent
through `sendCommand` *without any viewport clamping* (lines 1989-1992),
then the element is re-queried. -/
def clickOptAttempt (lab : String) (notFirst : Bool) (st : St) (e : Env) :
    ActOut :=
  match getLiveCoords st e with
  | (none, st, e) => ⟨false, [], st, e⟩
  | (some c₀, st, e) =>
  if !c₀.found then ⟨false, [], st, e⟩
  else if c₀.checked = some true then ⟨true, [], st, e⟩
  else
    let afterView : List Cmd → St → Env → ActOut := fun cs st e =>
      match getLiveCoords st e with
      | (none, st, e) => ⟨false, cs, st, e⟩
      | (some c₂, st, e) =>
      if !c₂.found || !c₂.inViewport then ⟨false, cs, st, e⟩
      else if notFirst then
        let r := (popRand e).1
        let e := (popRand e).2
        let nudge : ℤ := 5 + jsFloorMul r 10
        let cs := cs ++ send st (Cmd.move nudge nudge)
        match getLiveCoords st e with
        | (none, st, e) => ⟨false, cs, st, e⟩
        | (some c₃, st, e) =>
            if !c₃.found || !c₃.inViewport then ⟨false, cs, st, e⟩
            else if c₃.checked = some true then ⟨true, cs, st, e⟩
            else clickOptCore lab notFirst c₃ cs st e
      else clickOptCore lab notFirst c₂ cs st e
    if !c₀.inViewport then
      let so := scrollToElement st e
      match so.res with
      | none => ⟨false, so.cmds, so.st, so.env⟩
      | some c' =>
          if !c'.found then ⟨false, so.cmds, so.st, so.env⟩
          else afterView so.cmds so.st so.env
    else afterView [] st e

/-- The CLICK_OPTION retry loop, `MAX_RETRIES = 20` (lines 1952-2063);
`idx` is the current attempt index, `fuel` the remaining attempts. -/
def clickOptLoop (lab : String) (st : St) (e : Env) (idx : ℕ) : ℕ → ActOut
  | 0 => ⟨false, [], st, e⟩
  | fuel + 1 =>
      if st.emergencyStop then ⟨false, [], st, e⟩
      else
        let a := clickOptAttempt lab (decide (0 < idx)) st e
        if a.okv then a
        else
          let rest := clickOptLoop lab a.st a.env (idx + 1) fuel
          ⟨rest.okv, a.cmds ++ rest.cmds, rest.st, rest.env⟩

/-- The whole CLICK_OPTION action (lines 1937-2068): the pre-check query
(lines 1943-1950) followed, unless it reported `found && checked === true`,
by the 20-attempt loop.  The second component is `true` iff the pre-check
fast path was taken (the source then `continue`s straight to the next
command, skipping even the inter-command delay). -/
def clickOptionHandler (lab : String) (st : St) (e : Env) : ActOut × Bool :=
  match getLiveCoords st e with
  | (none, st, e) => (clickOptLoop lab st e 0 20, false)
  | (some p, st, e) =>
      if p.found && p.checked = some true then (⟨true, [], st, e⟩, true)
      else (clickOptLoop lab st e 0 20, false)

/-- The action a raw command string is dispatched to (the `if`/`else if`
chain of lines 1760-2073). -/
inductive Act where
  | skipEnter
  | delay (ms : String)
  | fill (sel text : String)
  | clickSel (sel : String)
  | clickOpt (sel lab : String)
  | raw (s : String)
deriving DecidableEq, Repr

/-- Parse one command string the way the dispatcher does: `KEY,Enter` is
blocked (line 1760); `DELAY,` sleeps locally (line 1776); `FILL_FIELD,`
splits off `parts[1]` as selector and rejoins the rest as text
(lines 1785-1787); `CLICK_SELECTOR,` rejoins everything after the keyword
(line 1881); `CLICK_OPTION,` takes `parts[1]` and rejoins the rest
(lines 1938-1940); anything else goes to the Injector verbatim. -/
def parseAction (cmd : String) : Act :=
  if cmd = "KEY,Enter" then Act.skipEnter
  else if jsStartsWith cmd "DELAY," then
    Act.delay ((jsSplitComma cmd).getD 1 "")
  else if jsStartsWith cmd "FILL_FIELD," then
    let parts := jsSplitComma cmd
    Act.fill (parts.getD 1 "") (jsJoinComma (parts.drop 2))
  else if jsStartsWith cmd "CLICK_SELECTOR," then
    Act.clickSel (jsJoinComma ((jsSplitComma cmd).drop 1))
  else if jsStartsWith cmd "CLICK_OPTION," then
    let parts := jsSplitComma cmd
    Act.clickOpt (parts.getD 1 "") (jsJoinComma (parts.drop 2))
  else Act.raw cmd

/-- Result of a sequencer run: emitted Injector commands, final state,
remaining oracle, and whether the `for` loop ran to its end so that
line 2079 (`this.isAutomating = false`) and the reading-resume block were
reached (`completed = false` are the hard-halt `return`s). -/
structure RunOut where
  cmds : List Cmd
  st : St
  env : Env
  completed : Bool
deriving DecidableEq, Repr

/-- The sequencer loop of `handleAutomationCommands` (lines 1754-2079).
After each executed action the inter-command jitter draw
`100 + Math.random() * 200` (line 2076) pops one random; the `continue`
paths (`KEY,Enter`, the CLICK_OPTION pre-check skip) bypass it.
On FILL_FIELD / CLICK_SELECTOR exhaustion the flag is cleared and the run
returns (lines 1874-1875, 1930-1931); on CLICK_OPTION exhaustion the run
returns *without* clearing the flag (lines 2064-2067). -/
def runCommands (st : St) (e : Env) : List String → RunOut
  | [] => ⟨[], { st with isAutomating := false }, e, true⟩
  | cmd :: rest =>
      if st.emergencyStop then ⟨[], { st with isAutomating := false }, e, true⟩
      else
        match parseAction cmd with
        | Act.skipEnter => runCommands st e rest
        | Act.delay _ =>
            runCommands st (popRand e).2 rest
        | Act.fill _ text =>
            let a := fillLoop text st e 4
            if !a.okv then ⟨a.cmds, { a.st with isAutomating := false }, a.env, false⟩
            else
              let out := runCommands a.st (popRand a.env).2 rest
              ⟨a.cmds ++ out.cmds, out.st, out.env, out.completed⟩
        | Act.clickSel _ =>
            let a := clickSelLoop st e 4
            if !a.okv then ⟨a.cmds, { a.st with isAutomating := false }, a.env, false⟩
            else
              let out := runCommands a.st (popRand a.env).2 rest
              ⟨a.cmds ++ out.cmds, out.st, out.env, out.completed⟩
        | Act.clickOpt _ lab =>
            let a := (clickOptionHandler lab st e).1
            let skipped := (clickOptionHandler lab st e).2
            if skipped then
              let out := runCommands a.st a.env rest
              ⟨a.cmds ++ out.cmds, out.st, out.env, out.completed⟩
            else if !a.okv then ⟨a.cmds, a.st, a.env, false⟩
            else
              let out := runCommands a.st (popRand a.env).2 rest
              ⟨a.cmds ++ out.cmds, out.st, out.env, out.completed⟩
        | Act.raw s =>
            let cs := send st (Cmd.raw s)
            let out := runCommands st (popRand e).2 rest
            ⟨cs ++ out.cmds, out.st, out.env, out.completed⟩

/-- `handleAutomationCommands` (lines 1712-2089): extract the command list
(empty → return before the `automating` flag is touched), pause a reading
session, set `isAutomating`, apply the cursor hint, run the sequencer, and
resume reading only when the loop completed normally. -/
def handleAutomationCommands (d : AutoData) (st : St) (e : Env) : RunOut :=
  if d.commands.isEmpty then ⟨[], st, e, true⟩
  else
    let wasReading := st.isReading
    let st := if wasReading then { st with isReading := false } else st
    let st := { st with isAutomating := true }
    let st := match d.cursorX, d.cursorY with
              | some x, some y => { st with currentPosition := (x, y) }
              | _, _ => st
    let out := runCommands st e d.commands
    if out.completed && wasReading && !out.st.emergencyStop then
      ⟨out.cmds, { out.st with isReading := true }, out.env, out.completed⟩
    else out

/-- Result of `POST /start`. -/
structure StartOut where
  status : ℕ
  cmds : List Cmd
  st : St
  env : Env
deriving DecidableEq, Repr

/-- The `POST /start` handler (lines 1450-1460): 400 when nothing is
parked, otherwise dispatch the parked list into the sequencer (the source
fires it and then nulls `pendingAutomationData`; the sequencer never reads
that slot, so clearing first is equivalent). -/
def startHandler (st : St) (e : Env) : StartOut :=
  match st.pendingAutomationData with
  | none => ⟨400, [], st, e⟩
  | some d =>
      let out := handleAutomationCommands d
        { st with pendingAutomationData := none } e
      ⟨200, out.cmds, out.st, out.env⟩

/-- The `POST /automation` handler (lines 1434-1449): park the parsed
payload; 400 on malformed JSON. -/
def automationHandler (st : St) (body : Option AutoData) : ℕ × St :=
  match body with
  | none => (400, st)
  | some d => (200, { st with pendingAutomationData := some d })

/-- The parsed body of `POST /cursor-position`; `x = none` models
`typeof data.x !== 'number'` (the only guard the handler applies). -/
structure PosData where
  x : Option ℚ := none
  y : ℚ := 0
  hoveredId : Option String := none
  hoveredName : Option String := none
  vp : Option Bounds := none
deriving DecidableEq, Repr

/-- The `POST /cursor-position` handler (lines 1513-1533): when `data.x` is
a number the cursor and hover are overwritten (zero included); viewport
bounds are refreshed when present; malformed JSON (`none`) is caught with
no mutation. -/
def cursorPositionHandler (st : St) (body : Option PosData) : St :=
  match body with
  | none => st
  | some d =>
      let st :=
        match d.x with
        | some xv =>
            { st with currentPosition := (xv, d.y),
                      currentHovered := ⟨d.hoveredId.getD "", d.hoveredName.getD ""⟩ }
        | none => st
      match d.vp with
      | some b => { st with viewportBounds := some b }
      | none => st

/-- The parsed body of `POST /cursor-hover`. -/
structure HoverData where
  hoveredId : Option String := none
  hoveredName : Option String := none
deriving DecidableEq, Repr

/-- The `POST /cursor-hover` handler (lines 1534-1544): only
`currentHovered` is assigned. -/
def cursorHoverHandler (st : St) (body : Option HoverData) : St :=
  match body with
  | none => st
  | some d =>
      { st with currentHovered := ⟨d.hoveredId.getD "", d.hoveredName.getD ""⟩ }

/-- The body of `GET /status` (lines 1637-1649; the diagnostic
`detectedFields` echo is not modelled). -/
structure StatusR where
  currentPosition : Pt
  isReading : Bool
  isAutomating : Bool
deriving DecidableEq, Repr

/-- The `GET /status` handler. -/
def statusHandler (st : St) : StatusR :=
  ⟨st.currentPosition, st.isReading, st.isAutomating⟩

/-! ## Theorems -/

/-- C5: for any `POST /cursor-hover` body (well-formed or not), the handler
leaves the State Store's cursor coordinates unchanged and mutates no field
other than the hover target. -/
theorem c5_hover_never_touches_cursor (st : St) (body : Option HoverData) :
    (cursorHoverHandler st body).currentPosition = st.currentPosition ∧
    (cursorHoverHandler st body).viewportBounds = st.viewportBounds ∧
    (cursorHoverHandler st body).isAutomating = st.isAutomating ∧
    (cursorHoverHandler st body).isReading = st.isReading ∧
    (cursorHoverHandler st body).pendingAutomationData = st.pendingAutomationData ∧
    (cursorHoverHandler st body).emergencyStop = st.emergencyStop := by
  cases body <;> simp [cursorHoverHandler]

/-- C3 (counterexample): a `POST /cursor-position` body carrying the zero
coordinates `x = 0, y = 0` *does* overwrite a previously stored valid
cursor reading `(500, 500)` — the handler only tests
`typeof data.x === 'number'`, which `0` passes. -/
theorem c3_counterexample :
    (cursorPositionHandler { currentPosition := (500, 500) }
        (some { x := some 0, y := 0 })).currentPosition = (0, 0) ∧
    ((0 : ℚ), (0 : ℚ)) ≠ ((500 : ℚ), (500 : ℚ)) :=
  ⟨rfl, by decide⟩

/-- C3 (amended): the `/cursor-position` handler overwrites the stored
cursor exactly when the posted `x` is numeric — zero included; only a
missing/non-numeric `x` (or a malformed body) leaves the stored cursor
unchanged. -/
theorem c3_cursor_overwrite_iff_numeric_x (st : St) (body : Option PosData) :
    (cursorPositionHandler st body).currentPosition =
      (match body with
       | some d =>
           (match d.x with
            | some xv => (xv, d.y)
            | none => st.currentPosition)
       | none => st.currentPosition) := by
  cases body with
  | none => rfl
  | some d =>
      cases hx : d.x <;> cases hv : d.vp <;>
        simp [cursorPositionHandler, hx, hv]

/-- C7 (counterexample): with a `found` snapshot whose re-queried raw value
is the empty string and target `"a"`, the spec's comparison criterion holds
(the target begins with the first 20 characters of the empty value), yet
the code counts the attempt as failed (`afterType.value` is falsy). -/
theorem c7_counterexample :
    fillVerify { found := true, value := "" } "a" = false ∧
    specFillCriterion "" "a" = true :=
  ⟨by decide, by decide⟩

/-- C7 (amended): a FILL_FIELD attempt's final value verification succeeds
exactly when the re-query found the element, the raw value is non-empty,
and — after case-folding and trimming both — either side begins with the
first 20 characters of the other. -/
theorem c7_fillVerify_characterisation (c : Coords) (text : String) :
    fillVerify c text = true ↔
      (c.found = true ∧ c.value ≠ "" ∧ specFillCriterion c.value text = true) := by
  simp [fillVerify, specFillCriterion, and_assoc]

/-- C4 (counterexample): with a list parked and a run already in flight
(`isAutomating = true`), `POST /start` still dispatches the parked list —
the handler checks only `pendingAutomationData`, and the sequencer entry
has no re-entry guard. -/
theorem c4_counterexample :
    ({ isAutomating := true,
       pendingAutomationData := some { commands := ["CLICK"] } } : St).isAutomating
        = true ∧
    (startHandler
      { isAutomating := true,
        pendingAutomationData := some { commands := ["CLICK"] } } {}).status = 200 ∧
    (startHandler
      { isAutomating := true,
        pendingAutomationData := some { commands := ["CLICK"] } } {}).cmds
        = [Cmd.raw "CLICK"] :=
  ⟨rfl, rfl, rfl⟩

/-- C4 (amended): `POST /start` dispatches the parked command list whenever
one is parked — regardless of whether a run is in progress — and returns
400 only when none is parked; the sequencer entry performs no re-entry
check: on a non-empty command list it behaves identically whatever the
prior value of the `automating` flag. -/
theorem c4_start_dispatch_unguarded (st : St) (e : Env) :
    (st.pendingAutomationData = none → startHandler st e = ⟨400, [], st, e⟩) ∧
    (∀ d, st.pendingAutomationData = some d →
      startHandler st e =
        ⟨200,
         (handleAutomationCommands d { st with pendingAutomationData := none } e).cmds,
         (handleAutomationCommands d { st with pendingAutomationData := none } e).st,
         (handleAutomationCommands d { st with pendingAutomationData := none } e).env⟩) ∧
    (∀ (d : AutoData) (st' : St) (e' : Env), d.commands ≠ [] →
      handleAutomationCommands d st' e' =
        handleAutomationCommands d { st' with isAutomating := false } e') := by
  refine ⟨fun h => ?_, fun d h => ?_, fun d st' e' h => ?_⟩
  · simp [startHandler, h]
  · simp [startHandler, h]
  · cases hc : d.commands with
    | nil => exact absurd hc h
    | cons c cs =>
        simp only [handleAutomationCommands, hc, List.isEmpty_cons]
        cases hr : st'.isReading <;> simp [hr]

/-- C4 amended, witness: a parked one-command list with a run in flight is
dispatched (status 200). -/
theorem c4_start_dispatch_unguarded_witness :
    ({ isAutomating := true,
       pendingAutomationData := some { commands := ["DELAY,100"] } } : St).pendingAutomationData
      = some { commands := ["DELAY,100"] } ∧
    startHandler
        { isAutomating := true,
          pendingAutomationData := some { commands := ["DELAY,100"] } } {} =
      ⟨200,
       (handleAutomationCommands { commands := ["DELAY,100"] }
         { isAutomating := true, pendingAutomationData := none } {}).cmds,
       (handleAutomationCommands { commands := ["DELAY,100"] }
         { isAutomating := true, pendingAutomationData := none } {}).st,
       (handleAutomationCommands { commands := ["DELAY,100"] }
         { isAutomating := true, pendingAutomationData := none } {}).env⟩ :=
  ⟨rfl,
   ((c4_start_dispatch_unguarded
      { isAutomating := true,
        pendingAutomationData := some { commands := ["DELAY,100"] } } {}).2.1
     { commands := ["DELAY,100"] } rfl)⟩

/-- C9: when viewport bounds are known and the clamped start and clamped
target are less than 3 px apart (squared distance < 9), `moveToAbs` emits
no `MOVE` command, sets the State Store cursor to the (clamped) target,
consumes no oracle, and reports success. -/
theorem c9_short_distance_no_moves (st : St) (e : Env) (tx ty : ℚ)
    (sp : Option Pt) (b : Bounds)
    (hb : st.viewportBounds = some b)
    (hd : distSq (clampPt b (sp.getD st.currentPosition)) (clampPt b (tx, ty)) < 9) :
    (moveToAbs st e tx ty sp).cmds = [] ∧
    (moveToAbs st e tx ty sp).st = { st with currentPosition := clampPt b (tx, ty) } ∧
    (moveToAbs st e tx ty sp).env = e ∧
    (moveToAbs st e tx ty sp).ok = true := by
  have h9 : distSq
      (clampQ (b.left + margin) (b.right - margin) (sp.getD st.currentPosition).1,
       clampQ (b.top + margin) (b.bottom - margin) (sp.getD st.currentPosition).2)
      (clampQ (b.left + margin) (b.right - margin) tx,
       clampQ (b.top + margin) (b.bottom - margin) ty) < 9 := by
    simpa [clampPt] using hd
  simp [moveToAbs, hb, MoveOut.cmds, clampPt, h9]

/-- C9, witness: cursor (500, 500), target (501, 501), viewport
(0, 0, 1280, 840): distance √2 < 3, so no `MOVE` is emitted. -/
theorem c9_short_distance_no_moves_witness :
    distSq (clampPt ⟨0, 0, 1280, 840⟩ ((none : Option Pt).getD (500, 500)))
        (clampPt ⟨0, 0, 1280, 840⟩ (501, 501)) < 9 ∧
    (moveToAbs { currentPosition := (500, 500),
                 viewportBounds := some ⟨0, 0, 1280, 840⟩ } {} 501 501 none).cmds = [] :=
  ⟨by norm_num [distSq, clampPt, clampQ, margin, min_def, max_def],
   (c9_short_distance_no_moves
      { currentPosition := (500, 500), viewportBounds := some ⟨0, 0, 1280, 840⟩ }
      {} 501 501 none ⟨0, 0, 1280, 840⟩ rfl
      (by norm_num [distSq, clampPt, clampQ, margin, min_def, max_def])).1⟩

/-- C6: when the CLICK_OPTION pre-check query answers `found` with
`checked == true`, the action is skipped on the fast path: the sequencer
run on `cmd :: rest` equals the run on `rest` alone (with just the
pre-check query consumed and the bounds refresh it carries applied), so no
`MOVE`, `SCROLL` or `CLICK` is emitted for the action and the next command
runs immediately. -/
theorem c6_clickOption_precheck_fast_path (cmd sel lab : String)
    (rest : List String) (st : St) (e : Env) (c : Coords)
    (qs : List (Option Coords))
    (hes : st.emergencyStop = false)
    (hp : parseAction cmd = Act.clickOpt sel lab)
    (hq : e.queries = some c :: qs)
    (hf : c.found = true) (hc : c.checked = some true) :
    runCommands st e (cmd :: rest) =
      runCommands (vpUpd st c) { e with queries := qs } rest := by
  have hpop : popQuery e = (some c, { e with queries := qs }) := by
    simp [popQuery, hq]
  have hgl : getLiveCoords st e =
      (some c, vpUpd st c, { e with queries := qs }) := by
    simp [getLiveCoords, hpop]
  have hch : clickOptionHandler lab st e =
      (⟨true, [], vpUpd st c, { e with queries := qs }⟩, true) := by
    simp [clickOptionHandler, hgl, hf, hc]
  simp [runCommands, hes, hp, hch]

/-- C6, witness: `CLICK_OPTION,#q,Yes` with the pre-check reporting the
option already checked advances straight to the (empty) remainder. -/
theorem c6_clickOption_precheck_fast_path_witness :
    parseAction "CLICK_OPTION,#q,Yes" = Act.clickOpt "#q" "Yes" ∧
    runCommands {} { queries := [some { found := true, checked := some true }] }
        ["CLICK_OPTION,#q,Yes"] =
      runCommands (vpUpd {} { found := true, checked := some true })
        { queries := [] } [] :=
  ⟨by decide,
   c6_clickOption_precheck_fast_path "CLICK_OPTION,#q,Yes" "#q" "Yes" []
     {} { queries := [some { found := true, checked := some true }] }
     { found := true, checked := some true } [] rfl (by decide) rfl rfl rfl⟩

/-- C8: (a) whenever the scroll loop examines a snapshot that is out of
view but within 50 px (`|scroll_delta_needed| < 50`), it emits nothing —
no `SCROLL` at all — and accepts the element as in view; (b) consequently
a `scrollToElement` invocation whose *first* snapshot is found, out of
view, and within 50 px returns without writing any `SCROLL` command. -/
theorem c8_scroll_small_delta_accepts :
    (∀ (st : St) (e : Env) (c : Coords) (fuel : ℕ),
       st.emergencyStop = false → c.inViewport = false →
       |c.scrollDeltaNeeded| < 50 →
       scrollLoop st e c (fuel + 1) =
         ⟨some { c with inViewport := true }, [], st, e⟩) ∧
    (∀ (st : St) (e : Env) (c : Coords) (qs : List (Option Coords)),
       st.emergencyStop = false → e.queries = some c :: qs →
       c.found = true → c.inViewport = false →
       |c.scrollDeltaNeeded| < 50 →
       (scrollToElement st e).cmds = []) := by
  have part1 : ∀ (st : St) (e : Env) (c : Coords) (fuel : ℕ),
      st.emergencyStop = false → c.inViewport = false →
      |c.scrollDeltaNeeded| < 50 →
      scrollLoop st e c (fuel + 1) =
        ⟨some { c with inViewport := true }, [], st, e⟩ := by
    intro st e c fuel hes hv hd
    simp [scrollLoop, hes, hv, hd]
  refine ⟨part1, fun st e c qs hes hq hf hv hd => ?_⟩
  have hpop : popQuery e = (some c, { e with queries := qs }) := by
    simp [popQuery, hq]
  have hgl : getLiveCoords st e =
      (some c, vpUpd st c, { e with queries := qs }) := by
    simp [getLiveCoords, hpop]
  have hes' : (vpUpd st c).emergencyStop = false := by simp [vpUpd, hes]
  have hloop := part1 (vpUpd st c) { e with queries := qs } c 11 hes' hv hd
  simp only [scrollToElement, hgl, hf, hv, Bool.not_true, Bool.false_or]
  rw [show (12 : ℕ) = 11 + 1 from rfl, hloop]
  rcases hg2 : getLiveCoords (vpUpd st c) { e with queries := qs } with ⟨o, st₂, e₂⟩
  cases o <;> simp [hg2]

/-- C8, witness: first snapshot out of view with `scroll_delta_needed = 30`
(< 50): the loop accepts and the invocation emits no command. -/
theorem c8_scroll_small_delta_accepts_witness :
    scrollLoop {} {} { found := true, inViewport := false, scrollDeltaNeeded := 30 } 12 =
      ⟨some { found := true, inViewport := true, scrollDeltaNeeded := 30 }, [], {}, {}⟩ ∧
    (scrollToElement {}
        { queries := [some { found := true, inViewport := false, scrollDeltaNeeded := 30 }] }).cmds
      = [] :=
  ⟨c8_scroll_small_delta_accepts.1 {} {}
     { found := true, inViewport := false, scrollDeltaNeeded := 30 } 11 rfl rfl
     (by decide),
   c8_scroll_small_delta_accepts.2 {}
     { queries := [some { found := true, inViewport := false, scrollDeltaNeeded := 30 }] }
     { found := true, inViewport := false, scrollDeltaNeeded := 30 } [] rfl rfl rfl rfl
     (by decide)⟩

/-- Every element selected by the skip-walk is an element of the list. -/
theorem mem_of_mem_everyNthGo {α : Type} (n : ℕ) :
    ∀ (fuel : ℕ) (l : List α) (a : α), a ∈ everyNthGo n fuel l → a ∈ l := by
  intro fuel
  induction fuel with
  | zero => intro l a h; simp [everyNthGo] at h
  | succ fuel ih =>
      intro l a h
      unfold everyNthGo at h
      cases hd : l.drop n with
      | nil => rw [hd] at h; simp at h
      | cons x xs =>
          rw [hd] at h
          rcases List.mem_cons.mp h with rfl | h₂
          · exact List.mem_of_mem_drop (by rw [hd]; exact List.mem_cons_self _ _)
          · exact List.mem_of_mem_drop (by rw [hd]; exact ih (x :: xs) a h₂)

/-- Every element selected by `everyNth` is an element of the list. -/
theorem mem_of_mem_everyNth {α : Type} (n : ℕ) (l : List α) (a : α)
    (h : a ∈ everyNth n l) : a ∈ l :=
  mem_of_mem_everyNthGo n l.length l a h

/-- Every landing point of the emission loop is one of the walked points. -/
theorem moveSteps_landing_mem :
    ∀ (l : List (ℤ × ℤ)) (last : ℤ × ℤ) (d p : ℤ × ℤ),
      (d, p) ∈ moveSteps last l → p ∈ l := by
  intro l
  induction l with
  | nil => intro last d p h; simp [moveSteps] at h
  | cons q qs ih =>
      intro last d p h
      unfold moveSteps at h
      by_cases hq : q = last
      · rw [if_pos hq] at h
        exact List.mem_cons_of_mem q (ih last d p h)
      · rw [if_neg hq] at h
        rcases List.mem_cons.mp h with heq | h₂
        · cases heq; exact List.mem_cons_self q qs
        · exact List.mem_cons_of_mem q (ih q d p h₂)

/-- `Math.round` of a rational lying between two integers lies between
them. -/
theorem jsRound_bounds (lo hi : ℤ) (x : ℚ)
    (h₁ : (lo : ℚ) ≤ x) (h₂ : x ≤ (hi : ℚ)) :
    lo ≤ jsRound x ∧ jsRound x ≤ hi := by
  have hhalf : ⌊(1 / 2 : ℚ)⌋ = 0 := by norm_num
  constructor
  · have : ⌊(lo : ℚ) + 1 / 2⌋ ≤ ⌊x + 1 / 2⌋ :=
      Int.floor_le_floor (by linarith)
    rwa [Int.floor_int_add, hhalf, add_zero] at this
  · have : ⌊x + 1 / 2⌋ ≤ ⌊(hi : ℚ) + 1 / 2⌋ :=
      Int.floor_le_floor (by linarith)
    rwa [Int.floor_int_add, hhalf, add_zero] at this

/-- The clamp lands inside the (nonempty) interval. -/
theorem clampQ_mem (lo hi x : ℚ) (h : lo ≤ hi) :
    lo ≤ clampQ lo hi x ∧ clampQ lo hi x ≤ hi :=
  ⟨le_max_left lo _, max_le h (min_le_left hi x)⟩

/-- Clamping a point already inside the interval is the identity. -/
theorem clampQ_id (lo hi x : ℚ) (h₁ : lo ≤ x) (h₂ : x ≤ hi) :
    clampQ lo hi x = x := by
  unfold clampQ; rw [min_eq_right h₂, max_eq_right h₁]

/-- Membership in an `if … then [] else [x]` list forces equality with the
singleton element. -/
theorem eq_of_mem_ite_nil_singleton {α : Type} {c : Prop} [Decidable c]
    {x a : α} (h : a ∈ (if c then [] else [x])) : a = x := by
  by_cases hc : c
  · rw [if_pos hc] at h; simp at h
  · rw [if_neg hc] at h; simpa using h

/-- Membership in an `if … then [x] else []` list forces equality with the
singleton element. -/
theorem eq_of_mem_ite_singleton_nil {α : Type} {c : Prop} [Decidable c]
    {x a : α} (h : a ∈ (if c then [x] else [])) : a = x := by
  by_cases hc : c
  · rw [if_pos hc] at h; simpa using h
  · rw [if_neg hc] at h; simp at h

/-- A point with integer coordinates lying inside the margin rectangle is
fixed by `clampPt`. -/
theorem clampPt_id_int (b : Bounds) (bl bt br bb z₁ z₂ : ℤ)
    (hlo₁ : b.left + margin = ((bl + 20 : ℤ) : ℚ))
    (hhi₁ : b.right - margin = ((br - 20 : ℤ) : ℚ))
    (hlo₂ : b.top + margin = ((bt + 20 : ℤ) : ℚ))
    (hhi₂ : b.bottom - margin = ((bb - 20 : ℤ) : ℚ))
    (h₁ : bl + 20 ≤ z₁) (h₂ : z₁ ≤ br - 20)
    (h₃ : bt + 20 ≤ z₂) (h₄ : z₂ ≤ bb - 20) :
    clampPt b ((z₁ : ℚ), (z₂ : ℚ)) = ((z₁ : ℚ), (z₂ : ℚ)) := by
  unfold clampPt
  simp only [Prod.mk.injEq]
  constructor
  · rw [hlo₁, hhi₁]
    exact clampQ_id _ _ _ (by exact_mod_cast h₁) (by exact_mod_cast h₂)
  · rw [hlo₂, hhi₂]
    exact clampQ_id _ _ _ (by exact_mod_cast h₃) (by exact_mod_cast h₄)

/-- With integral viewport corners, a nonempty margin rectangle, a target
inside the margin rectangle and an integral correction-time cursor, every
landing point of `moveEmission` lies inside the margin rectangle (so
clamping it is the identity). -/
theorem moveEmission_landings (b : Bounds) (esFlag : Bool) (pts0 : List Pt)
    (fx fy tx ty d2 : ℚ) (live : Pt) (bl bt br bb lx ly : ℤ)
    (hbl : b.left = (bl : ℚ)) (hbt : b.top = (bt : ℚ))
    (hbr : b.right = (br : ℚ)) (hbb : b.bottom = (bb : ℚ))
    (hlive : live = ((lx : ℚ), (ly : ℚ)))
    (hx : b.left + margin ≤ b.right - margin)
    (hy : b.top + margin ≤ b.bottom - margin)
    (htx : b.left + margin ≤ tx ∧ tx ≤ b.right - margin)
    (hty : b.top + margin ≤ ty ∧ ty ≤ b.bottom - margin) :
    ∀ m ∈ moveEmission b esFlag pts0 fx fy tx ty d2 live,
      clampPt b m.2 = m.2 := by
  intro m hm
  have hlo₁ : b.left + margin = ((bl + 20 : ℤ) : ℚ) := by
    rw [hbl]; unfold margin; push_cast; ring
  have hhi₁ : b.right - margin = ((br - 20 : ℤ) : ℚ) := by
    rw [hbr]; unfold margin; push_cast; ring
  have hlo₂ : b.top + margin = ((bt + 20 : ℤ) : ℚ) := by
    rw [hbt]; unfold margin; push_cast; ring
  have hhi₂ : b.bottom - margin = ((bb - 20 : ℤ) : ℚ) := by
    rw [hbb]; unfold margin; push_cast; ring
  -- every rounded clamped path point satisfies the integer bounds
  have key : ∀ (p : ℤ × ℤ),
      p ∈ (pts0.map (fun p =>
            (clampQ (b.left + margin) (b.right - margin) p.1,
             clampQ (b.top + margin) (b.bottom - margin) p.2))).map
          (fun p => (jsRound p.1, jsRound p.2)) →
      (bl + 20 ≤ p.1 ∧ p.1 ≤ br - 20) ∧ (bt + 20 ≤ p.2 ∧ p.2 ≤ bb - 20) := by
    intro p hp
    rcases List.mem_map.mp hp with ⟨q, hq, hpq⟩
    rcases List.mem_map.mp hq with ⟨q₀, _, hq₀⟩
    have hq1 := clampQ_mem (b.left + margin) (b.right - margin) q₀.1 hx
    have hq2 := clampQ_mem (b.top + margin) (b.bottom - margin) q₀.2 hy
    have hr1 := jsRound_bounds (bl + 20) (br - 20)
      (clampQ (b.left + margin) (b.right - margin) q₀.1)
      (by rw [← hlo₁]; exact hq1.1) (by rw [← hhi₁]; exact hq1.2)
    have hr2 := jsRound_bounds (bt + 20) (bb - 20)
      (clampQ (b.top + margin) (b.bottom - margin) q₀.2)
      (by rw [← hlo₂]; exact hq2.1) (by rw [← hhi₂]; exact hq2.2)
    have hp1 : p.1 = jsRound (clampQ (b.left + margin) (b.right - margin) q₀.1) := by
      rw [← hpq, ← hq₀]
    have hp2 : p.2 = jsRound (clampQ (b.top + margin) (b.bottom - margin) q₀.2) := by
      rw [← hpq, ← hq₀]
    rw [hp1, hp2]
    exact ⟨hr1, hr2⟩
  simp only [moveEmission] at hm
  rcases List.mem_append.mp hm with hA | hB
  · -- path walk or final point
    rcases List.mem_map.mp hA with ⟨a, ha, hma⟩
    have hm2 : m.2 = ((a.2.1 : ℚ), (a.2.2 : ℚ)) := by rw [← hma]
    rcases List.mem_append.mp ha with hPath | hFinal
    · -- the walk: landings are selected rounded points
      have hmem : a.2 ∈ (pts0.map (fun p =>
          (clampQ (b.left + margin) (b.right - margin) p.1,
           clampQ (b.top + margin) (b.bottom - margin) p.2))).map
          (fun p => (jsRound p.1, jsRound p.2)) := by
        rcases hes : esFlag with _ | _
        · rw [hes] at hPath
          simp only [Bool.false_eq_true, if_false] at hPath
          exact mem_of_mem_everyNth _ _ _
            (moveSteps_landing_mem _ _ a.1 a.2
              (by rw [Prod.mk.eta]; exact hPath))
        · rw [hes] at hPath; simp at hPath
      have hb2 := key a.2 hmem
      rw [hm2]
      exact clampPt_id_int b bl bt br bb a.2.1 a.2.2 hlo₁ hhi₁ hlo₂ hhi₂
        hb2.1.1 hb2.1.2 hb2.2.1 hb2.2.2
    · -- the final point: it is the last rounded point
      rcases hlast : (pts0.map (fun p =>
          (clampQ (b.left + margin) (b.right - margin) p.1,
           clampQ (b.top + margin) (b.bottom - margin) p.2))).map
          (fun p => (jsRound p.1, jsRound p.2)) |>.getLast? with _ | fp
      · rw [hlast] at hFinal; simp at hFinal
      · rw [hlast] at hFinal
        have heq := eq_of_mem_ite_nil_singleton hFinal
        have ha2 : a.2 = fp := by rw [heq]
        have hb2 := key fp (List.mem_of_mem_getLast? hlast)
        rw [hm2, ha2]
        exact clampPt_id_int b bl bt br bb fp.1 fp.2 hlo₁ hhi₁ hlo₂ hhi₂
          hb2.1.1 hb2.1.2 hb2.2.1 hb2.2.2
  · -- the correction move lands on the rounded target
    have heq := eq_of_mem_ite_singleton_nil hB
    have hm2 : m.2 =
        (live.1 + (jsRound (tx - live.1) : ℚ),
         live.2 + (jsRound (ty - live.2) : ℚ)) := by rw [heq]
    have hx1 : live.1 + (jsRound (tx - live.1) : ℚ) = ((jsRound tx : ℤ) : ℚ) := by
      rw [hlive]
      simp only [jsRound]
      have h : tx - (lx : ℚ) + 1 / 2 = tx + 1 / 2 - (lx : ℚ) := by ring
      rw [h, Int.floor_sub_int]
      push_cast; ring
    have hy1 : live.2 + (jsRound (ty - live.2) : ℚ) = ((jsRound ty : ℤ) : ℚ) := by
      rw [hlive]
      simp only [jsRound]
      have h : ty - (ly : ℚ) + 1 / 2 = ty + 1 / 2 - (ly : ℚ) := by ring
      rw [h, Int.floor_sub_int]
      push_cast; ring
    have hr1 := jsRound_bounds (bl + 20) (br - 20) tx
      (by rw [← hlo₁]; exact htx.1) (by rw [← hhi₁]; exact htx.2)
    have hr2 := jsRound_bounds (bt + 20) (bb - 20) ty
      (by rw [← hlo₂]; exact hty.1) (by rw [← hhi₂]; exact hty.2)
    rw [hm2, show
        ((live.1 + (jsRound (tx - live.1) : ℚ),
          live.2 + (jsRound (ty - live.2) : ℚ)) : Pt) =
        (((jsRound tx : ℤ) : ℚ), ((jsRound ty : ℤ) : ℚ)) by rw [hx1, hy1]]
    exact clampPt_id_int b bl bt br bb (jsRound tx) (jsRound ty)
      hlo₁ hhi₁ hlo₂ hhi₂ hr1.1 hr1.2 hr2.1 hr2.2

/-- C2 (amended): every `MOVE` emitted by `moveToAbs` — the path walk, the
final-point write and the correction — lands inside the viewport shrunk by
the 20 px margin, provided the viewport corners are integral, the margin
rectangle is nonempty, and the correction-time cursor reading is integral.
(The CLICK_OPTION retry nudge is *not* emitted by `moveToAbs` and is exempt
— see the counterexample.) -/
theorem c2_moveToAbs_moves_clamped (st : St) (e : Env) (tx0 ty0 : ℚ)
    (sp : Option Pt) (b : Bounds) (bl bt br bb lx ly : ℤ)
    (hb : st.viewportBounds = some b)
    (hbl : b.left = (bl : ℚ)) (hbt : b.top = (bt : ℚ))
    (hbr : b.right = (br : ℚ)) (hbb : b.bottom = (bb : ℚ))
    (hx : b.left + margin ≤ b.right - margin)
    (hy : b.top + margin ≤ b.bottom - margin)
    (hlive : ((popLive (popPath e).2).1).getD st.currentPosition
      = ((lx : ℚ), (ly : ℚ))) :
    ∀ m ∈ (moveToAbs st e tx0 ty0 sp).moves, clampPt b m.2 = m.2 := by
  intro m hm
  simp only [moveToAbs, hb] at hm
  by_cases h9 : distSq
      (clampQ (b.left + margin) (b.right - margin) (sp.getD st.currentPosition).1,
       clampQ (b.top + margin) (b.bottom - margin) (sp.getD st.currentPosition).2)
      (clampQ (b.left + margin) (b.right - margin) tx0,
       clampQ (b.top + margin) (b.bottom - margin) ty0) < 9
  · rw [if_pos h9] at hm; simp at hm
  · rw [if_neg h9] at hm
    exact moveEmission_landings b st.emergencyStop (popPath e).1 _ _ _ _ _ _
      bl bt br bb lx ly hbl hbt hbr hbb hlive hx hy
      (clampQ_mem _ _ tx0 hx) (clampQ_mem _ _ ty0 hy) m hm

/-- C2, witness for the amended theorem: a 100 px horizontal move with the
probe silent lands its single corrective `MOVE` exactly on the target
(200, 100), which clamping leaves unchanged. -/
theorem c2_moveToAbs_moves_clamped_witness :
    clampPt ⟨0, 0, 1280, 840⟩ (200, 100) = (200, 100) := by
  have happ := c2_moveToAbs_moves_clamped
    { currentPosition := (100, 100), viewportBounds := some ⟨0, 0, 1280, 840⟩ }
    {} 200 100 none ⟨0, 0, 1280, 840⟩ 0 0 1280 840 100 100
    rfl (by norm_num) (by norm_num) (by norm_num) (by norm_num)
    (by norm_num [margin]) (by norm_num [margin])
    (by norm_num [popLive, popPath])
  refine happ (Cmd.move 100 0, (200, 100)) ?_
  have h1 : clampQ (20 : ℚ) 1260 100 = 100 := by
    norm_num [clampQ, min_def, max_def]
  have h2 : clampQ (20 : ℚ) 1260 200 = 200 := by
    norm_num [clampQ, min_def, max_def]
  have h3 : clampQ (20 : ℚ) 820 100 = 100 := by
    norm_num [clampQ, min_def, max_def]
  have hd : distSq ((100 : ℚ), (100 : ℚ)) ((200 : ℚ), (100 : ℚ)) = 10000 := by
    norm_num [distSq]
  have hru : jsRound (100 : ℚ) = 100 := by
    norm_num [jsRound, Int.floor_eq_iff]
  simp only [moveToAbs, moveEmission, popPath, popLive, margin]
  norm_num [h1, h2, h3, hd, hru, distSq, everyNth, everyNthGo, moveSteps,
    landingAfter, jsRound, clampQ, min_def, max_def, Int.floor_eq_iff]

/-- Replaying the "single wrong char" correction sequence nets exactly the
correct character. -/
theorem replay_wrongCharCmds (t : List Char) (i : ℕ) (c : Char) (e : Env)
    (buf : List Char) :
    ((wrongCharCmds t i c e).1).foldl replayStep buf = buf ++ [c] := by
  simp only [wrongCharCmds]
  simp [replayStep, List.dropLast_concat]

/-- Replaying the "swapped pair" correction sequence nets exactly the two
characters in the correct order. -/
theorem replay_swapCmds (c₁ c₂ : Char) (e : Env) (buf : List Char) :
    ((swapCmds c₁ c₂ e).1).foldl replayStep buf = buf ++ [c₁, c₂] := by
  simp only [swapCmds]
  simp only [List.foldl_cons, List.foldl_nil, replayStep, if_pos]
  rw [show buf ++ [c₂] ++ [c₁] = (buf ++ [c₂]) ++ [c₁] from rfl,
      List.dropLast_concat, List.dropLast_concat]
  simp

/-- The no-typo step of the generator. -/
theorem genTypingAux_normal (t : List Char) (e : Env) (i : ℕ)
    (h : i < t.length)
    (herr : ¬((popRand e).1 < 8/100 ∧ ¬isSpaceOrNl (t.get ⟨i, h⟩))) :
    genTypingAux t e i =
      (TCmd.tchar (t.get ⟨i, h⟩) :: (genTypingAux t (popRand e).2 (i + 1)).1,
       (genTypingAux t (popRand e).2 (i + 1)).2) := by
  rw [genTypingAux]
  simp only [dif_pos h]
  rw [if_neg herr]

/-- The swapped-pair step of the generator. -/
theorem genTypingAux_swap (t : List Char) (e : Env) (i : ℕ)
    (h : i < t.length)
    (herr : (popRand e).1 < 8/100 ∧ ¬isSpaceOrNl (t.get ⟨i, h⟩))
    (hs : i + 1 < t.length)
    (hns : ¬isSpaceOrNl (t.get ⟨i + 1, hs⟩))
    (hr2 : (popRand (popRand e).2).1 < 4/10) :
    genTypingAux t e i =
      ((swapCmds (t.get ⟨i, h⟩) (t.get ⟨i + 1, hs⟩) (popRand (popRand e).2).2).1 ++
         (genTypingAux t
           (swapCmds (t.get ⟨i, h⟩) (t.get ⟨i + 1, hs⟩) (popRand (popRand e).2).2).2
           (i + 2)).1,
       (genTypingAux t
         (swapCmds (t.get ⟨i, h⟩) (t.get ⟨i + 1, hs⟩) (popRand (popRand e).2).2).2
         (i + 2)).2) := by
  rw [genTypingAux]
  simp only [dif_pos h]
  rw [if_pos herr]
  simp only [dif_pos hs]
  rw [if_pos hns, if_pos hr2]

/-- The wrong-char step when a swap was possible but the 40 % draw said
no. -/
theorem genTypingAux_wrongA (t : List Char) (e : Env) (i : ℕ)
    (h : i < t.length)
    (herr : (popRand e).1 < 8/100 ∧ ¬isSpaceOrNl (t.get ⟨i, h⟩))
    (hs : i + 1 < t.length)
    (hns : ¬isSpaceOrNl (t.get ⟨i + 1, hs⟩))
    (hr2 : ¬(popRand (popRand e).2).1 < 4/10) :
    genTypingAux t e i =
      ((wrongCharCmds t i (t.get ⟨i, h⟩) (popRand (popRand e).2).2).1 ++
         (genTypingAux t
           (wrongCharCmds t i (t.get ⟨i, h⟩) (popRand (popRand e).2).2).2
           (i + 1)).1,
       (genTypingAux t
         (wrongCharCmds t i (t.get ⟨i, h⟩) (popRand (popRand e).2).2).2
         (i + 1)).2) := by
  rw [genTypingAux]
  simp only [dif_pos h]
  rw [if_pos herr]
  simp only [dif_pos hs]
  rw [if_pos hns, if_neg hr2]

/-- The wrong-char step when the next character is whitespace. -/
theorem genTypingAux_wrongB (t : List Char) (e : Env) (i : ℕ)
    (h : i < t.length)
    (herr : (popRand e).1 < 8/100 ∧ ¬isSpaceOrNl (t.get ⟨i, h⟩))
    (hs : i + 1 < t.length)
    (hns : ¬¬isSpaceOrNl (t.get ⟨i + 1, hs⟩)) :
    genTypingAux t e i =
      ((wrongCharCmds t i (t.get ⟨i, h⟩) (popRand e).2).1 ++
         (genTypingAux t
           (wrongCharCmds t i (t.get ⟨i, h⟩) (popRand e).2).2 (i + 1)).1,
       (genTypingAux t
         (wrongCharCmds t i (t.get ⟨i, h⟩) (popRand e).2).2 (i + 1)).2) := by
  rw [genTypingAux]
  simp only [dif_pos h]
  rw [if_pos herr]
  simp only [dif_pos hs]
  rw [if_neg hns]

/-- The wrong-char step at the last character of the text. -/
theorem genTypingAux_wrongC (t : List Char) (e : Env) (i : ℕ)
    (h : i < t.length)
    (herr : (popRand e).1 < 8/100 ∧ ¬isSpaceOrNl (t.get ⟨i, h⟩))
    (hs : ¬i + 1 < t.length) :
    genTypingAux t e i =
      ((wrongCharCmds t i (t.get ⟨i, h⟩) (popRand e).2).1 ++
         (genTypingAux t
           (wrongCharCmds t i (t.get ⟨i, h⟩) (popRand e).2).2 (i + 1)).1,
       (genTypingAux t
         (wrongCharCmds t i (t.get ⟨i, h⟩) (popRand e).2).2 (i + 1)).2) := by
  rw [genTypingAux]
  simp only [dif_pos h]
  rw [if_pos herr]
  simp only [dif_neg hs]

/-- Replaying the typing program generated from position `i` reconstructs
exactly the remaining suffix of the text, whatever the random draws. -/
theorem genTypingAux_replay (t : List Char) (e : Env) (i : ℕ)
    (buf : List Char) :
    ((genTypingAux t e i).1).foldl replayStep buf = buf ++ t.drop i := by
  by_cases h : i < t.length
  · have hdrop : t.drop i = t.get ⟨i, h⟩ :: t.drop (i + 1) := by
      rw [List.drop_eq_getElem_cons h, List.get_eq_getElem]
    by_cases herr : (popRand e).1 < 8/100 ∧ ¬isSpaceOrNl (t.get ⟨i, h⟩)
    · by_cases hs : i + 1 < t.length
      · by_cases hns : ¬isSpaceOrNl (t.get ⟨i + 1, hs⟩)
        · by_cases hr2 : (popRand (popRand e).2).1 < 4/10
          · -- swapped pair
            have hdrop2 : t.drop (i + 1) = t.get ⟨i + 1, hs⟩ :: t.drop (i + 2) := by
              rw [List.drop_eq_getElem_cons hs, List.get_eq_getElem]
            rw [genTypingAux_swap t e i h herr hs hns hr2]
            simp only [List.foldl_append, replay_swapCmds]
            rw [genTypingAux_replay t _ (i + 2), hdrop, hdrop2]
            simp
          · -- wrong char, swap declined
            rw [genTypingAux_wrongA t e i h herr hs hns hr2]
            simp only [List.foldl_append, replay_wrongCharCmds]
            rw [genTypingAux_replay t _ (i + 1), hdrop]
            simp
        · -- wrong char, next is whitespace
          rw [genTypingAux_wrongB t e i h herr hs hns]
          simp only [List.foldl_append, replay_wrongCharCmds]
          rw [genTypingAux_replay t _ (i + 1), hdrop]
          simp
      · -- wrong char, last character
        rw [genTypingAux_wrongC t e i h herr hs]
        simp only [List.foldl_append, replay_wrongCharCmds]
        rw [genTypingAux_replay t _ (i + 1), hdrop]
        simp
    · -- plain character
      rw [genTypingAux_normal t e i h herr]
      simp only [List.foldl_cons, replayStep]
      rw [genTypingAux_replay t _ (i + 1), hdrop]
      simp
  · rw [genTypingAux]
    simp [List.drop_eq_nil_of_le (Nat.le_of_not_lt h), h]
termination_by t.length - i
decreasing_by all_goals omega

/-- C10: replaying the command list produced by the typing generator —
appending each emitted character in order and deleting the last appended
character for each emitted Backspace key — reconstructs exactly the input
string, for every input and every outcome of the random draws; both typo
branches erase precisely the erroneous characters they introduced. -/
theorem c10_typing_replay_roundtrip (t : List Char) (e : Env) :
    replay (generateTypingCommands t e).1 = t := by
  have h := genTypingAux_replay t e 0 []
  simpa [replay, generateTypingCommands] using h

/-- C2 (counterexample): during a CLICK_OPTION action whose first attempt
fails and whose second reaches the retry nudge (lines 1989-1992), the
Injector is sent `MOVE,5,5` through `sendCommand` with no clamping while
the tracked cursor sits at `(1260, 820)` — the corner of the shrunk
viewport `(0,0,1280,840)` minus the 20 px margin.  Cursor + delta =
`(1265, 825)` is *not* fixed by the margin clamp, refuting the claim that
every emitted `MOVE` satisfies the clamp invariant. -/
theorem c2_counterexample :
    ((clickOptionHandler "Yes"
        { currentPosition := (1260, 820), viewportBounds := some ⟨0, 0, 1280, 840⟩ }
        { queries := [some { found := false }, some { found := false },
                      some { found := true, inViewport := true, checked := some false },
                      some { found := true, inViewport := true, checked := some false },
                      some { found := true, inViewport := true,
                             checked := some true }] }).1.cmds
      = [Cmd.move 5 5]) ∧
    ((clickOptionHandler "Yes"
        { currentPosition := (1260, 820), viewportBounds := some ⟨0, 0, 1280, 840⟩ }
        { queries := [some { found := false }, some { found := false },
                      some { found := true, inViewport := true, checked := some false },
                      some { found := true, inViewport := true, checked := some false },
                      some { found := true, inViewport := true,
                             checked := some true }] }).1.st.currentPosition
      = (1260, 820)) ∧
    clampPt ⟨0, 0, 1280, 840⟩ ((1260 : ℚ) + 5, (820 : ℚ) + 5)
      ≠ ((1260 : ℚ) + 5, (820 : ℚ) + 5) := by
  refine ⟨?_, ?_, ?_⟩
  · simp [clickOptionHandler, clickOptLoop, clickOptAttempt, getLiveCoords,
      popQuery, popRand, send, jsFloorMul, vpUpd, ActOut.cmds]
  · simp [clickOptionHandler, clickOptLoop, clickOptAttempt, getLiveCoords,
      popQuery, popRand, send, jsFloorMul, vpUpd]
  · norm_num [clampPt, clampQ, margin, min_def, max_def, Prod.mk.injEq]

/-- C1: after a CLICK_OPTION action exhausts its 20 attempts with no
Probe-confirmed `checked == true` (here: the probe never answers), the
sequencer returns without executing the subsequent `CLICK` command — but,
unlike the FILL_FIELD and CLICK_SELECTOR exits, it does *not* clear
`isAutomating`, so a later `GET /status` still reports `automating = true`,
contradicting the documented hard-halt contract. -/
theorem c1_clickOption_halt_keeps_automating :
    (handleAutomationCommands
        { commands := ["CLICK_OPTION,#q-1,Yes", "CLICK"] } {} {}).cmds = [] ∧
    (handleAutomationCommands
        { commands := ["CLICK_OPTION,#q-1,Yes", "CLICK"] } {} {}).completed = false ∧
    (statusHandler (handleAutomationCommands
        { commands := ["CLICK_OPTION,#q-1,Yes", "CLICK"] } {} {}).st).isAutomating
      = true :=
  ⟨rfl, rfl, rfl⟩

end FormAuto
